import Mathlib

/-!
Shallow embedding of `workers/sql-worker.js` (the Azure VM deployment
version): a BullMQ worker that resolves a per-notebook database
configuration, fetches a JSON artifact of SQL statements from S3, executes
them sequentially against a downstream HTTP execution endpoint, and
maintains a bounded per-notebook monitoring record.

External effects (Supabase lookups, S3 fetch, the HTTP execution endpoint,
JSON parsing of external payloads, wall-clock timestamps) are modelled as
explicit oracle parameters.  Wall-clock durations (`executionTime`) are
outside the model; everything else in the per-statement result records is
embedded.
-/

/-- JavaScript truthiness of an optional string value (`undefined`/`null`
and the empty string are falsy). -/
def jsTruthyStr : Option String → Bool
  | none => false
  | some s => !(s == "")

/-- JavaScript `v || d` for an optional string `v` and default `d`. -/
def orElseStr (v : Option String) (d : String) : String :=
  match v with
  | none => d
  | some s => if s == "" then d else s

/-- One element of the decoded S3 artifact: either a bare string, or an
object with optional `id`, `query`, `variableName` fields (JS property
access on a string yields `undefined`, hence `none`). -/
inductive ArtifactItem where
  | str (s : String)
  | obj (id : Option String) (query : Option String) (variableName : Option String)
deriving Repr, DecidableEq

/-- JS `item.id`. -/
def ArtifactItem.getId : ArtifactItem → Option String
  | .str _ => none
  | .obj id _ _ => id

/-- JS `item.query`. -/
def ArtifactItem.getQuery : ArtifactItem → Option String
  | .str _ => none
  | .obj _ q _ => q

/-- JS `item.variableName`. -/
def ArtifactItem.getVariableName : ArtifactItem → Option String
  | .str _ => none
  | .obj _ _ v => v

/-- Behaviour of one `axios.post` call to `/api/executequery`: a 2xx reply
whose body may carry a `rows` array (modelled by its row list), a non-2xx
reply (axios throws with `error.response` set, carrying an optional
`{error}` body field and an `error.message`), a transport-level failure
(no response, only `error.message`), or the 300s timeout abort. -/
inductive DownstreamResponse where
  | ok (rows : Option (List String))
  | httpError (status : Nat) (errBody : Option String) (message : String)
  | transportError (message : String)
  | timeout
deriving Repr, DecidableEq

/-- The value returned by `executeQuery`: `{success, rowCount?, error?}`
(the `data` field on success is not needed by any claim and is omitted
together with `status` on failure). -/
structure QueryOutcome where
  success : Bool
  rowCount : Nat
  error : Option String
deriving Repr, DecidableEq

/-- Embedding of `executeQuery` (sql-worker.js lines 312-354).  The whole
body runs inside `try { ... } catch (error) { return {success:false, ...} }`,
so every branch returns an outcome and the function never throws.  The
`WORKER_SECRET_KEY` check throws inside the `try`, hence is caught into a
failure outcome as well. -/
def executeQuery (secretKey : Option String) (resp : DownstreamResponse) :
    QueryOutcome :=
  if !(jsTruthyStr secretKey) then
    { success := false, rowCount := 0,
      error := some "CRITICAL: WORKER_SECRET_KEY is not defined in the worker environment." }
  else
    match resp with
    | .ok rows =>
        { success := true, rowCount := ((rows.getD []).length), error := none }
    | .httpError _ errBody message =>
        { success := false, rowCount := 0,
          error := some (orElseStr errBody (orElseStr (some message) "Unknown error")) }
    | .transportError message =>
        { success := false, rowCount := 0,
          error := some (orElseStr (some message) "Unknown error") }
    | .timeout =>
        { success := false, rowCount := 0,
          error := some "timeout of 300000ms exceeded" }

/-- One entry pushed onto `executionResults` in the processor loop
(`executionTime` and the ISO timestamp are wall-clock values outside the
model). -/
structure ExecutionResult where
  queryId : String
  variableName : String
  success : Bool
  error : Option String
deriving Repr, DecidableEq

/-- The result record built by iteration `idx` (0-based) of the processor
loop for `item`, given the downstream behaviour oracle `respond`. -/
def mkResult (secretKey : Option String) (respond : Nat → DownstreamResponse)
    (idx : Nat) (item : ArtifactItem) : ExecutionResult :=
  let queryId := orElseStr item.getId s!"query_{idx + 1}"
  let variableName := orElseStr item.getVariableName s!"result_{idx + 1}"
  let r := executeQuery secretKey (respond idx)
  { queryId := queryId, variableName := variableName,
    success := r.success, error := r.error }

/-- Accumulated state of the processor loop: the two counters, the
`executionResults` array, and instrumentation counting `sleep(200)` and
`executeQuery` invocations. -/
structure BatchState where
  successCount : Nat
  failureCount : Nat
  results : List ExecutionResult
  sleeps : Nat
  execCalls : Nat
deriving Repr, DecidableEq

/-- Embedding of the `for (const [index, item] of queryObjects.entries())`
loop (sql-worker.js lines 388-417), starting at index `idx`.  Each
iteration calls `executeQuery` once, increments exactly one counter,
pushes one result record, and runs `await sleep(200)` once (the sleep is
unconditional: it also runs after the last statement). -/
def runBatch (secretKey : Option String) (respond : Nat → DownstreamResponse) :
    List ArtifactItem → Nat → BatchState
  | [], _ => ⟨0, 0, [], 0, 0⟩
  | item :: rest, idx =>
      let r := executeQuery secretKey (respond idx)
      let tail := runBatch secretKey respond rest (idx + 1)
      { successCount := (if r.success then 1 else 0) + tail.successCount,
        failureCount := (if r.success then 0 else 1) + tail.failureCount,
        results := mkResult secretKey respond idx item :: tail.results,
        sleeps := 1 + tail.sleeps,
        execCalls := 1 + tail.execCalls }

/-- The fields of `job.data` used by the worker. -/
structure JobData where
  s3Key : Option String
  notebookId : Option String
  notebookName : Option String
deriving Repr, DecidableEq

/-- The row shape selected from `autonomis_user_notebook`: the nested
`autonomis_user_database` record with its `connection_string` and nested
`autonomis_data_source` name (optional nesting models missing
associations). -/
structure DataSourceRec where
  name : String
deriving Repr, DecidableEq

structure UserDatabaseRec where
  connection_string : String
  autonomis_data_source : Option DataSourceRec
deriving Repr, DecidableEq

structure NotebookRec where
  autonomis_user_database : Option UserDatabaseRec
deriving Repr, DecidableEq

/-- Reply of the Supabase `.single()` notebook lookup: either an `error`
object (with its message), or `data` that may be null. -/
inductive LookupResult where
  | err (msg : String)
  | ok (notebook : Option NotebookRec)
deriving Repr, DecidableEq

/-- Embedding of `getDatabaseConfig` (sql-worker.js lines 276-310).
`parse` is the external `JSON.parse` oracle for the stored connection
string (`.error msg` models a thrown `SyntaxError`); the parsed config is
kept opaque as a string.  The outer `catch (error) { throw error; }`
re-raises unchanged, so failures propagate as `.error`. -/
def getDatabaseConfig (parse : String → Except String String)
    (notebookId : String) (lookup : LookupResult) :
    Except String (String × String) :=
  match lookup with
  | .err msg => .error s!"Failed to fetch notebook configuration: {msg}"
  | .ok notebook =>
    match notebook with
    | none => .error s!"No complete database configuration found for notebook {notebookId}"
    | some nb =>
      match nb.autonomis_user_database with
      | none => .error s!"No complete database configuration found for notebook {notebookId}"
      | some db =>
        match db.autonomis_data_source with
        | none => .error s!"No complete database configuration found for notebook {notebookId}"
        | some ds =>
          match parse db.connection_string with
          | .error msg => .error msg
          | .ok dbConfig => .ok (dbConfig, ds.name.toLower)

/-- All the external behaviour a single processor run can observe:
the worker secret, the connection-string parser, the config-store reply,
the S3 fetch (`.error` models a thrown fetch failure), the artifact
decoder (`JSON.parse` + list structure), and the downstream endpoint's
behaviour per statement index. -/
structure Env where
  secretKey : Option String
  parse : String → Except String String
  lookup : LookupResult
  s3Fetch : Except String String
  parseArtifact : String → Except String (List ArtifactItem)
  respond : Nat → DownstreamResponse

/-- Instrumentation: how many config-store lookups, S3 fetches and
downstream statement executions a run performed. -/
structure Trace where
  configCalls : Nat
  s3Calls : Nat
  execCalls : Nat
deriving Repr, DecidableEq

/-- The object returned by the processor on the success path
(`{status, message, results}`), with the two loop counters that produced
`status` and `message` carried alongside. -/
structure JobRunResult where
  status : String
  message : String
  successCount : Nat
  failureCount : Nat
  results : List ExecutionResult
deriving Repr, DecidableEq

/-- Embedding of `processor` (sql-worker.js lines 358-432): validate
`s3Key` then `notebookId` (throwing before any I/O), resolve the database
config, fetch and decode the artifact, run the statement loop, and
assemble the returned object; every failure after validation is re-thrown
by the outer `catch`. -/
def processor (env : Env) (jobData : JobData) :
    Except String JobRunResult × Trace :=
  if !(jsTruthyStr jobData.s3Key) then
    (.error "Job failed: Missing \"s3Key\" in job data.", ⟨0, 0, 0⟩)
  else if !(jsTruthyStr jobData.notebookId) then
    (.error "Job failed: Missing \"notebookId\" in job data. Cannot determine which database to connect to.", ⟨0, 0, 0⟩)
  else
    match getDatabaseConfig env.parse (jobData.notebookId.getD "") env.lookup with
    | .error msg => (.error msg, ⟨1, 0, 0⟩)
    | .ok _ =>
      match env.s3Fetch with
      | .error msg => (.error msg, ⟨1, 1, 0⟩)
      | .ok body =>
        match env.parseArtifact body with
        | .error msg => (.error msg, ⟨1, 1, 0⟩)
        | .ok items =>
          let st := runBatch env.secretKey env.respond items 0
          (.ok
            { status := if st.failureCount == 0 then "Completed" else "Completed with errors",
              message := s!"Execution finished. {st.successCount}/{items.length} queries succeeded. {st.failureCount} failed.",
              successCount := st.successCount,
              failureCount := st.failureCount,
              results := st.results },
           ⟨1, 1, st.execCalls⟩)

/-- One entry of `run_history`: `{status, timestamp}` (the ISO timestamp
string is supplied as the oracle value `now`). -/
structure RunHistoryEntry where
  status : String
  timestamp : String
deriving Repr, DecidableEq

/-- The full row upserted into `autonomis_job_monitoring`. -/
structure MonitoringRecord where
  notebook_id : String
  notebook_name : String
  last_known_job_id : String
  last_run_time : String
  last_run_status : String
  run_history : List RunHistoryEntry
  successful_runs_last_5 : Nat
  failed_runs_last_5 : Nat
  is_active : Bool
deriving Repr, DecidableEq

/-- Reply of the `.maybeSingle()` monitoring read: an error object, or
`data` that is null when no row exists for the notebook. -/
inductive SelectResult where
  | err (msg : String)
  | ok (current : Option MonitoringRecord)
deriving Repr, DecidableEq

/-- Reply of the monitoring upsert: success or an error object (which the
code only logs). -/
inductive UpsertResult where
  | ok
  | err (msg : String)
deriving Repr, DecidableEq

/-- Instrumentation: how many reads and writes `updateMonitoringData`
issued against the monitoring table. -/
structure MonitoringStoreOps where
  reads : Nat
  writes : Nat
deriving Repr, DecidableEq

/-- A BullMQ job as seen by the event handlers: its id and its data. -/
structure MonJob where
  id : String
  data : JobData
deriving Repr, DecidableEq

/-- Embedding of `updateMonitoringData` (sql-worker.js lines 436-486).
Returns the record carried by the upsert call (`none` when no upsert was
attempted) together with the read/write counts.  A null job or a falsy
`job.data.notebookId` returns immediately; a select error returns after
the read; otherwise the new history is the new entry prepended and the
list truncated to 5, the two counters are recomputed over that window,
and the full record is upserted keyed on `notebook_id`.  Every branch
returns normally: the body is wrapped in `try { ... } catch (e) { log }`
and an upsert error is only logged. -/
def updateMonitoringData (selectRes : SelectResult) (upsertRes : UpsertResult)
    (now : String) (job : Option MonJob) (status : String) :
    Option MonitoringRecord × MonitoringStoreOps :=
  match job with
  | none => (none, ⟨0, 0⟩)
  | some j =>
    if !(jsTruthyStr j.data.notebookId) then (none, ⟨0, 0⟩)
    else
      match selectRes with
      | .err _ => (none, ⟨1, 0⟩)
      | .ok current =>
        let history := (current.map (fun c => c.run_history)).getD []
        let history := ⟨status, now⟩ :: history
        let newHistory := history.take 5
        let successful_runs_last_5 :=
          (newHistory.filter (fun run => run.status == "completed")).length
        let failed_runs_last_5 :=
          (newHistory.filter (fun run => run.status == "failed")).length
        let row :=
          { notebook_id := j.data.notebookId.getD "",
            notebook_name := orElseStr j.data.notebookName "Untitled Notebook",
            last_known_job_id := j.id,
            last_run_time := now,
            last_run_status := status,
            run_history := newHistory,
            successful_runs_last_5 := successful_runs_last_5,
            failed_runs_last_5 := failed_runs_last_5,
            is_active := true : MonitoringRecord }
        (some row, ⟨1, 1⟩)

/-- One monitoring-store round trip with a successful read and write: the
table's row for the tenant after `updateMonitoringData` runs against the
prior row `prior` (`none` = no row yet).  When no upsert was attempted the
table is unchanged. -/
def applyEvent (job : MonJob) (prior : Option MonitoringRecord)
    (now : String) (status : String) : Option MonitoringRecord :=
  match (updateMonitoringData (.ok prior) .ok now (some job) status).fst with
  | some row => some row
  | none => prior

/-- Folds `applyEvent` over a list of `(now, status)` terminal events,
oldest first. -/
def applyEvents (job : MonJob) (prior : Option MonitoringRecord) :
    List (String × String) → Option MonitoringRecord
  | [] => prior
  | (now, status) :: rest =>
      applyEvents job (applyEvent job prior now status) rest

/-- The worker's event wiring (sql-worker.js lines 491-501): run the
processor on the job; a returned value fires the `completed` handler, a
thrown error fires the `failed` handler, each calling
`updateMonitoringData` with the corresponding status.  The pair holds the
job's outcome as surfaced to BullMQ and the monitoring call's effect. -/
def runJobWithMonitoring (env : Env) (selectRes : SelectResult)
    (upsertRes : UpsertResult) (now : String) (job : MonJob) :
    (Except String JobRunResult × Trace) ×
      (Option MonitoringRecord × MonitoringStoreOps) :=
  let r := processor env job.data
  let status := match r.fst with
    | .ok _ => "completed"
    | .error _ => "failed"
  (r, updateMonitoringData selectRes upsertRes now (some job) status)

/-- The terminal events the worker dispatches to the monitoring recorder
for one job: exactly one per terminal state, `(notebookId, status)`. -/
def terminalEvents (env : Env) (job : MonJob) : List (String × String) :=
  match (processor env job.data).fst with
  | .ok _ => [(job.data.notebookId.getD "", "completed")]
  | .error _ => [(job.data.notebookId.getD "", "failed")]

/-- A falsy JS value makes `v || d` evaluate to the default. -/
theorem orElseStr_of_not_truthy (v : Option String) (d : String)
    (h : jsTruthyStr v = false) : orElseStr v d = d := by
  cases v with
  | none => rfl
  | some s =>
      simp [jsTruthyStr] at h
      simp [orElseStr, h]

/-- The `executionResults` array is the per-index result record of each
artifact item, in artifact order. -/
theorem runBatch_results (secret : Option String)
    (respond : Nat → DownstreamResponse) :
    ∀ (items : List ArtifactItem) (idx : Nat),
      (runBatch secret respond items idx).results =
        (items.enumFrom idx).map (fun p => mkResult secret respond p.1 p.2)
  | [], _ => rfl
  | item :: rest, idx => by
      simp [runBatch, List.enumFrom,
        runBatch_results secret respond rest (idx + 1)]

/-- Each loop iteration increments exactly one of the two counters. -/
theorem runBatch_success_add_failure (secret : Option String)
    (respond : Nat → DownstreamResponse) (items : List ArtifactItem) :
    ∀ idx, (runBatch secret respond items idx).successCount +
      (runBatch secret respond items idx).failureCount = items.length := by
  induction items with
  | nil => intro idx; rfl
  | cons item rest ih =>
      intro idx
      have h := ih (idx + 1)
      by_cases hs : (executeQuery secret (respond idx)).success = true
      · simp [runBatch, hs]
        omega
      · simp [runBatch, hs]
        omega

/-- `failureCount` counts exactly the items whose downstream execution
failed. -/
theorem runBatch_failureCount (secret : Option String)
    (respond : Nat → DownstreamResponse) (items : List ArtifactItem) :
    ∀ idx, (runBatch secret respond items idx).failureCount =
      ((items.enumFrom idx).countP
        (fun p => !(executeQuery secret (respond p.1)).success)) := by
  induction items with
  | nil => intro idx; rfl
  | cons item rest ih =>
      intro idx
      have h := ih (idx + 1)
      by_cases hs : (executeQuery secret (respond idx)).success = true
      · simp [runBatch, List.enumFrom, List.countP_cons, hs, h]
      · simp [runBatch, List.enumFrom, List.countP_cons, hs, h]
        omega

/-- One result record is pushed per item. -/
theorem runBatch_results_length (secret : Option String)
    (respond : Nat → DownstreamResponse) (items : List ArtifactItem) :
    ∀ idx, (runBatch secret respond items idx).results.length = items.length := by
  induction items with
  | nil => intro idx; rfl
  | cons item rest ih =>
      intro idx
      simp [runBatch, ih (idx + 1)]

/-- One `sleep(200)` runs per item (the pacing delay is unconditional). -/
theorem runBatch_sleeps (secret : Option String)
    (respond : Nat → DownstreamResponse) (items : List ArtifactItem) :
    ∀ idx, (runBatch secret respond items idx).sleeps = items.length := by
  induction items with
  | nil => intro idx; rfl
  | cons item rest ih =>
      intro idx
      simp [runBatch, ih (idx + 1)]
      omega

/-- One `executeQuery` call per item. -/
theorem runBatch_execCalls (secret : Option String)
    (respond : Nat → DownstreamResponse) (items : List ArtifactItem) :
    ∀ idx, (runBatch secret respond items idx).execCalls = items.length := by
  induction items with
  | nil => intro idx; rfl
  | cons item rest ih =>
      intro idx
      simp [runBatch, ih (idx + 1)]
      omega

/-- An entry is never both `completed` and `failed`, so the two filtered
counts never exceed the window length. -/
theorem filter_status_length_le (l : List RunHistoryEntry) :
    (l.filter (fun run => run.status == "completed")).length +
      (l.filter (fun run => run.status == "failed")).length ≤ l.length := by
  induction l with
  | nil => simp
  | cons a t ih =>
      by_cases h1 : a.status = "completed"
      · have h2 : ¬(a.status = "failed") := by simp [h1]
        simp [List.filter_cons, h1, h2]
        omega
      · by_cases h2 : a.status = "failed"
        · simp [List.filter_cons, h1, h2]
          omega
        · simp [List.filter_cons, h1, h2]
          omega

/-- Claim C1: on the success path with artifact `items`, of which `K` fail
at the downstream service, the returned job result has
`successCount = N - K`, `failureCount = K`,
`successCount + failureCount` equal to the number of outcomes produced,
and status `Completed` iff `K = 0`, otherwise `Completed with errors`. -/
theorem C1_jobResult_invariants (env : Env) (jobData : JobData)
    (cfg : String × String) (body : String) (items : List ArtifactItem)
    (h1 : jsTruthyStr jobData.s3Key = true)
    (h2 : jsTruthyStr jobData.notebookId = true)
    (h3 : getDatabaseConfig env.parse (jobData.notebookId.getD "") env.lookup
            = .ok cfg)
    (h4 : env.s3Fetch = .ok body)
    (h5 : env.parseArtifact body = .ok items) :
    ∃ res : JobRunResult,
      (processor env jobData).fst = .ok res ∧
      res.successCount = items.length -
        ((items.enumFrom 0).countP
          (fun p => !(executeQuery env.secretKey (env.respond p.1)).success)) ∧
      res.failureCount =
        ((items.enumFrom 0).countP
          (fun p => !(executeQuery env.secretKey (env.respond p.1)).success)) ∧
      res.successCount + res.failureCount = res.results.length ∧
      (res.status = "Completed" ↔ res.failureCount = 0) ∧
      (res.failureCount ≠ 0 → res.status = "Completed with errors") := by
  have hadd := runBatch_success_add_failure env.secretKey env.respond items 0
  have hfail := runBatch_failureCount env.secretKey env.respond items 0
  have hlen := runBatch_results_length env.secretKey env.respond items 0
  simp only [processor, h1, h2, h3, h4, h5, Bool.not_true,
    Bool.false_eq_true, if_false]
  refine ⟨_, rfl, ?_, ?_, ?_, ?_, ?_⟩
  · simp only []
    omega
  · simpa using hfail
  · simp only []
    omega
  · by_cases hf : (runBatch env.secretKey env.respond items 0).failureCount = 0
    · simp [hf]
    · simp [hf]
  · intro hf
    simp_all

/-- Concrete two-statement artifact: a bare string and an object with an
explicit id. -/
def c1wItems : List ArtifactItem :=
  [ArtifactItem.str "SELECT 1",
   ArtifactItem.obj (some "q2") (some "SELECT 2") none]

/-- Concrete environment: all phases succeed, statement 0 returns one row,
statement 1 times out. -/
def c1wEnv : Env :=
  { secretKey := some "k",
    parse := fun s => Except.ok s,
    lookup := LookupResult.ok (some ⟨some ⟨"cfg", some ⟨"MySQL"⟩⟩⟩),
    s3Fetch := Except.ok "body",
    parseArtifact := fun _ => Except.ok c1wItems,
    respond := fun i =>
      if i == 0 then DownstreamResponse.ok (some ["r"])
      else DownstreamResponse.timeout }

/-- Concrete valid job payload. -/
def c1wJob : JobData := ⟨some "key.json", some "nb1", none⟩

/-- Witness for C1 at a concrete two-statement job with one downstream
failure. -/
theorem C1_jobResult_invariants_witness :
    ∃ res : JobRunResult,
      (processor c1wEnv c1wJob).fst = .ok res ∧
      res.successCount = c1wItems.length -
        ((c1wItems.enumFrom 0).countP
          (fun p => !(executeQuery c1wEnv.secretKey (c1wEnv.respond p.1)).success)) ∧
      res.failureCount =
        ((c1wItems.enumFrom 0).countP
          (fun p => !(executeQuery c1wEnv.secretKey (c1wEnv.respond p.1)).success)) ∧
      res.successCount + res.failureCount = res.results.length ∧
      (res.status = "Completed" ↔ res.failureCount = 0) ∧
      (res.failureCount ≠ 0 → res.status = "Completed with errors") :=
  C1_jobResult_invariants c1wEnv c1wJob ("cfg", "MySQL".toLower) "body"
    c1wItems rfl rfl rfl rfl rfl

/-- Claim C2: with a configured secret, `executeQuery` returns an outcome
for every downstream behaviour instead of raising: a 2xx reply yields
`success = true` with the reply's row count and no error; every non-2xx,
transport-failure or timeout behaviour yields `success = false` with an
error message; and the processor loop still produces one outcome per
statement for every downstream behaviour, so a failed outcome never stops
the batch. -/
theorem C2_executeQuery_isolation (secret : Option String)
    (h : jsTruthyStr secret = true) :
    (∀ rows, (executeQuery secret (.ok rows)).success = true ∧
        (executeQuery secret (.ok rows)).rowCount = (rows.getD []).length ∧
        (executeQuery secret (.ok rows)).error = none) ∧
    (∀ resp : DownstreamResponse, (∀ rows, resp ≠ .ok rows) →
        (executeQuery secret resp).success = false ∧
        ∃ msg, (executeQuery secret resp).error = some msg) ∧
    (∀ (respond : Nat → DownstreamResponse) (items : List ArtifactItem)
        (idx : Nat),
        (runBatch secret respond items idx).results.length = items.length) := by
  refine ⟨?_, ?_, ?_⟩
  · intro rows
    simp [executeQuery, h]
  · intro resp hresp
    cases resp with
    | ok rows => exact absurd rfl (hresp rows)
    | httpError status errBody message =>
        refine ⟨by simp [executeQuery, h], ?_⟩
        exact ⟨orElseStr errBody (orElseStr (some message) "Unknown error"),
          by simp [executeQuery, h]⟩
    | transportError message =>
        refine ⟨by simp [executeQuery, h], ?_⟩
        exact ⟨orElseStr (some message) "Unknown error",
          by simp [executeQuery, h]⟩
    | timeout =>
        refine ⟨by simp [executeQuery, h], ?_⟩
        exact ⟨"timeout of 300000ms exceeded", by simp [executeQuery, h]⟩
  · intro respond items idx
    exact runBatch_results_length secret respond items idx

/-- Witness for C2 at a concrete secret, a concrete success reply, a
concrete timeout, and a concrete two-statement batch where every call
fails. -/
theorem C2_executeQuery_isolation_witness :
    (executeQuery (some "k") (.ok (some ["a", "b"]))).success = true ∧
    (executeQuery (some "k") DownstreamResponse.timeout).success = false ∧
    (runBatch (some "k") (fun _ => DownstreamResponse.timeout)
      [ArtifactItem.str "x", ArtifactItem.str "y"] 0).results.length = 2 :=
  ⟨((C2_executeQuery_isolation (some "k") (by decide)).1 (some ["a", "b"])).1,
   ((C2_executeQuery_isolation (some "k") (by decide)).2.1
      DownstreamResponse.timeout (fun rows h => nomatch h)).1,
   (C2_executeQuery_isolation (some "k") (by decide)).2.2
      (fun _ => DownstreamResponse.timeout)
      [ArtifactItem.str "x", ArtifactItem.str "y"] 0⟩

/-- Claim C5 counterexample: a one-statement batch performs one pacing
delay, not `N - 1 = 0`: the `sleep(200)` also runs after the last
statement. -/
theorem C5_counterexample :
    (runBatch (some "k") (fun _ => DownstreamResponse.timeout)
      [ArtifactItem.str "SELECT 1"] 0).sleeps = 1 ∧ (1 : Nat) ≠ 1 - 1 :=
  ⟨rfl, by decide⟩

/-- Claim C5 (amended): the fixed pacing delay runs after every statement
including the last: exactly `N` delays for a batch of `N` statements. -/
theorem C5_amended_delay_after_every_statement (secret : Option String)
    (respond : Nat → DownstreamResponse) (items : List ArtifactItem)
    (idx : Nat) :
    (runBatch secret respond items idx).sleeps = items.length :=
  runBatch_sleeps secret respond items idx

/-- Claim C6: a job payload with a falsy `s3Key` or `notebookId` is
rejected with a validation error before any I/O: zero config-store
lookups, zero S3 fetches, zero statement executions. -/
theorem C6_validation_before_io (env : Env) (jobData : JobData)
    (h : jsTruthyStr jobData.s3Key = false ∨
         jsTruthyStr jobData.notebookId = false) :
    ∃ msg, processor env jobData = (.error msg, ⟨0, 0, 0⟩) := by
  by_cases hs : jsTruthyStr jobData.s3Key = true
  · have hn : jsTruthyStr jobData.notebookId = false := by
      rcases h with h | h
      · rw [h] at hs; exact absurd hs (by simp)
      · exact h
    exact ⟨"Job failed: Missing \"notebookId\" in job data. Cannot determine which database to connect to.",
      by simp [processor, hs, hn]⟩
  · have hs' : jsTruthyStr jobData.s3Key = false := by
      simpa using hs
    exact ⟨"Job failed: Missing \"s3Key\" in job data.",
      by simp [processor, hs']⟩

/-- Witness for C6: a job payload with no `notebookId` is rejected with
zero traced I/O calls. -/
theorem C6_validation_before_io_witness :
    ∃ msg, processor c1wEnv ⟨some "key.json", none, none⟩ =
      (.error msg, ⟨0, 0, 0⟩) :=
  C6_validation_before_io c1wEnv ⟨some "key.json", none, none⟩
    (Or.inr (by decide))

/-- Claim C9: statements execute strictly in artifact sequence order and
the outcome order equals the execution order: on the success path the
`results` array is exactly the per-index result record of each artifact
item, in artifact order; an empty artifact yields status `Completed` with
an empty outcome sequence. -/
theorem C9_ordering (env : Env) (jobData : JobData)
    (cfg : String × String) (body : String) (items : List ArtifactItem)
    (h1 : jsTruthyStr jobData.s3Key = true)
    (h2 : jsTruthyStr jobData.notebookId = true)
    (h3 : getDatabaseConfig env.parse (jobData.notebookId.getD "") env.lookup
            = .ok cfg)
    (h4 : env.s3Fetch = .ok body)
    (h5 : env.parseArtifact body = .ok items) :
    ∃ res : JobRunResult,
      (processor env jobData).fst = .ok res ∧
      res.results = (items.enumFrom 0).map
        (fun p => mkResult env.secretKey env.respond p.1 p.2) ∧
      (items = [] → res.status = "Completed" ∧ res.results = []) := by
  simp only [processor, h1, h2, h3, h4, h5, Bool.not_true,
    Bool.false_eq_true, if_false]
  refine ⟨_, rfl, ?_, ?_⟩
  · simpa using runBatch_results env.secretKey env.respond items 0
  · intro hitems
    subst hitems
    exact ⟨rfl, rfl⟩

/-- Concrete environment whose artifact decodes to zero statements. -/
def c9wEnv : Env :=
  { secretKey := some "k",
    parse := fun s => Except.ok s,
    lookup := LookupResult.ok (some ⟨some ⟨"cfg", some ⟨"MySQL"⟩⟩⟩),
    s3Fetch := Except.ok "body",
    parseArtifact := fun _ => Except.ok [],
    respond := fun _ => DownstreamResponse.timeout }

/-- Witness for C9 at a concrete empty artifact. -/
theorem C9_ordering_witness :
    ∃ res : JobRunResult,
      (processor c9wEnv c1wJob).fst = .ok res ∧
      res.results = (([] : List ArtifactItem).enumFrom 0).map
        (fun p => mkResult c9wEnv.secretKey c9wEnv.respond p.1 p.2) ∧
      (([] : List ArtifactItem) = [] →
        res.status = "Completed" ∧ res.results = []) :=
  C9_ordering c9wEnv c1wJob ("cfg", "MySQL".toLower) "body" []
    rfl rfl rfl rfl rfl

/-- Claim C4 counterexample: a bare-string statement at 1-indexed position
1 gets fallback id `query_1`, not `statement_1` as the claim states. -/
theorem C4_counterexample :
    ((runBatch (some "k") (fun _ => DownstreamResponse.ok none)
        [ArtifactItem.str "SELECT 1"] 0).results.map
      (fun r => r.queryId)) = ["query_1"] ∧
    "query_1" ≠ "statement_1" := by
  constructor
  · rfl
  · decide

/-- Claim C4 (amended): an artifact element whose `id` and `variableName`
reads are falsy (in particular a bare string, whose property reads are
`undefined`, or an object lacking both fields) gets the deterministic
fallback identifiers `query_<k>` for the statement id and `result_<k>`
for the result name at 1-indexed position `k`. -/
theorem C4_amended_fallback_identifiers (secret : Option String)
    (respond : Nat → DownstreamResponse) (items : List ArtifactItem)
    (i : Nat) (hi : i < items.length)
    (hid : jsTruthyStr ((items.get ⟨i, hi⟩).getId) = false)
    (hvn : jsTruthyStr ((items.get ⟨i, hi⟩).getVariableName) = false) :
    ∃ r : ExecutionResult,
      (runBatch secret respond items 0).results[i]? = some r ∧
      r.queryId = s!"query_{i + 1}" ∧
      r.variableName = s!"result_{i + 1}" := by
  refine ⟨mkResult secret respond i (items.get ⟨i, hi⟩), ?_, ?_, ?_⟩
  · rw [runBatch_results, List.getElem?_map, List.getElem?_enumFrom,
      List.getElem?_eq_getElem hi]
    simp [List.get_eq_getElem]
  · simp only [mkResult, orElseStr_of_not_truthy _ _ hid]
  · simp only [mkResult, orElseStr_of_not_truthy _ _ hvn]

/-- Witness for C4 (amended) at a concrete id-less object element at
position 1. -/
theorem C4_amended_fallback_identifiers_witness :
    ∃ r : ExecutionResult,
      (runBatch (some "k") (fun _ => DownstreamResponse.timeout)
        [ArtifactItem.obj none (some "SELECT 1") none] 0).results[0]?
        = some r ∧
      r.queryId = s!"query_{0 + 1}" ∧
      r.variableName = s!"result_{0 + 1}" :=
  C4_amended_fallback_identifiers (some "k")
    (fun _ => DownstreamResponse.timeout)
    [ArtifactItem.obj none (some "SELECT 1") none] 0
    (by decide) (by decide) (by decide)

/-- One successful monitoring round trip prepends the new entry and
truncates the history to 5. -/
theorem applyEvent_eq (job : MonJob) (prior : Option MonitoringRecord)
    (now status : String)
    (hid : jsTruthyStr job.data.notebookId = true) :
    ∃ row : MonitoringRecord,
      applyEvent job prior now status = some row ∧
      row.run_history =
        ((⟨status, now⟩ : RunHistoryEntry) ::
          ((prior.map (fun c => c.run_history)).getD [])).take 5 := by
  simp only [applyEvent, updateMonitoringData, hid, Bool.not_true,
    Bool.false_eq_true, if_false]
  exact ⟨_, rfl, rfl⟩

/-- Claim C3: a terminal event prepends `{status, timestamp}` to the prior
history (absence treated as empty), truncates to the 5 most recent
entries newest-first, recomputes the two counters as the `completed` and
`failed` counts within the truncated window (their sum is at most 5), and
upserts the full record keyed by the tenant id; after 6 consecutive
events the history length is exactly 5 and holds the 5 most recent
events, newest first. -/
theorem C3_monitoring_window (prior : Option MonitoringRecord)
    (upsertRes : UpsertResult) (job : MonJob) (now status : String)
    (hid : jsTruthyStr job.data.notebookId = true) :
    (∃ row : MonitoringRecord,
      (updateMonitoringData (.ok prior) upsertRes now (some job) status).fst
        = some row ∧
      row.run_history =
        ((⟨status, now⟩ : RunHistoryEntry) ::
          ((prior.map (fun c => c.run_history)).getD [])).take 5 ∧
      row.run_history.length ≤ 5 ∧
      row.successful_runs_last_5 =
        (row.run_history.filter (fun run => run.status == "completed")).length ∧
      row.failed_runs_last_5 =
        (row.run_history.filter (fun run => run.status == "failed")).length ∧
      row.successful_runs_last_5 + row.failed_runs_last_5 ≤ 5 ∧
      row.notebook_id = job.data.notebookId.getD "") ∧
    (∀ e1 e2 e3 e4 e5 e6 : String × String,
      ∃ row6 : MonitoringRecord,
        applyEvents job prior [e1, e2, e3, e4, e5, e6] = some row6 ∧
        row6.run_history =
          [⟨e6.2, e6.1⟩, ⟨e5.2, e5.1⟩, ⟨e4.2, e4.1⟩, ⟨e3.2, e3.1⟩,
            ⟨e2.2, e2.1⟩] ∧
        row6.run_history.length = 5) := by
  constructor
  · simp only [updateMonitoringData, hid, Bool.not_true, Bool.false_eq_true,
      if_false]
    have hle := filter_status_length_le
      (((⟨status, now⟩ : RunHistoryEntry) ::
        ((prior.map (fun c => c.run_history)).getD [])).take 5)
    have hlen : (((⟨status, now⟩ : RunHistoryEntry) ::
        ((prior.map (fun c => c.run_history)).getD [])).take 5).length ≤ 5 := by
      simp [List.length_take]
    refine ⟨_, rfl, rfl, ?_, rfl, rfl, ?_, rfl⟩
    · simp [List.length_take]
    · exact Nat.le_trans hle hlen
  · intro e1 e2 e3 e4 e5 e6
    obtain ⟨n1, s1⟩ := e1
    obtain ⟨n2, s2⟩ := e2
    obtain ⟨n3, s3⟩ := e3
    obtain ⟨n4, s4⟩ := e4
    obtain ⟨n5, s5⟩ := e5
    obtain ⟨n6, s6⟩ := e6
    obtain ⟨r1, h1, hh1⟩ := applyEvent_eq job prior n1 s1 hid
    obtain ⟨r2, h2, hh2⟩ := applyEvent_eq job (some r1) n2 s2 hid
    obtain ⟨r3, h3, hh3⟩ := applyEvent_eq job (some r2) n3 s3 hid
    obtain ⟨r4, h4, hh4⟩ := applyEvent_eq job (some r3) n4 s4 hid
    obtain ⟨r5, h5, hh5⟩ := applyEvent_eq job (some r4) n5 s5 hid
    obtain ⟨r6, h6, hh6⟩ := applyEvent_eq job (some r5) n6 s6 hid
    refine ⟨r6, ?_, ?_, ?_⟩
    · simp only [applyEvents, h1, h2, h3, h4, h5, h6]
    · simp at hh2 hh3 hh4 hh5 hh6
      rw [hh6, hh5, hh4, hh3, hh2, hh1]
      simp [List.take_succ_cons, List.take_take]
    · simp at hh2 hh3 hh4 hh5 hh6
      rw [hh6, hh5, hh4, hh3, hh2, hh1]
      simp [List.take_succ_cons, List.take_take, List.length_take]

/-- Concrete job for monitoring witnesses. -/
def c3wJob : MonJob := ⟨"j1", ⟨some "key.json", some "nb1", none⟩⟩

/-- Witness for C3 at a concrete first event for a fresh tenant and six
concrete consecutive events. -/
theorem C3_monitoring_window_witness :
    (∃ row : MonitoringRecord,
      (updateMonitoringData (.ok none) .ok "t0" (some c3wJob)
        "completed").fst = some row ∧
      row.run_history =
        ((⟨"completed", "t0"⟩ : RunHistoryEntry) ::
          (((none : Option MonitoringRecord)).map
            (fun c => c.run_history)).getD []).take 5 ∧
      row.run_history.length ≤ 5 ∧
      row.successful_runs_last_5 =
        (row.run_history.filter (fun run => run.status == "completed")).length ∧
      row.failed_runs_last_5 =
        (row.run_history.filter (fun run => run.status == "failed")).length ∧
      row.successful_runs_last_5 + row.failed_runs_last_5 ≤ 5 ∧
      row.notebook_id = c3wJob.data.notebookId.getD "") ∧
    (∃ row6 : MonitoringRecord,
      applyEvents c3wJob none
        [("t1", "completed"), ("t2", "failed"), ("t3", "completed"),
         ("t4", "completed"), ("t5", "failed"), ("t6", "completed")]
        = some row6 ∧
      row6.run_history =
        [⟨"completed", "t6"⟩, ⟨"failed", "t5"⟩, ⟨"completed", "t4"⟩,
         ⟨"completed", "t3"⟩, ⟨"failed", "t2"⟩] ∧
      row6.run_history.length = 5) :=
  ⟨(C3_monitoring_window none .ok c3wJob "t0" "completed" (by decide)).1,
   (C3_monitoring_window none .ok c3wJob "t0" "completed" (by decide)).2
     ("t1", "completed") ("t2", "failed") ("t3", "completed")
     ("t4", "completed") ("t5", "failed") ("t6", "completed")⟩

/-- Claim C7: when execution-context resolution fails, the processor
performs zero statement executions (and zero S3 fetches), re-raises the
resolution error unchanged, and the worker dispatches exactly one
`failed` terminal event for that tenant to the monitoring recorder. -/
theorem C7_resolution_failure (env : Env) (job : MonJob) (msg : String)
    (h1 : jsTruthyStr job.data.s3Key = true)
    (h2 : jsTruthyStr job.data.notebookId = true)
    (h3 : getDatabaseConfig env.parse (job.data.notebookId.getD "")
            env.lookup = .error msg) :
    processor env job.data = (.error msg, ⟨1, 0, 0⟩) ∧
    terminalEvents env job = [(job.data.notebookId.getD "", "failed")] := by
  have hp : processor env job.data = (.error msg, ⟨1, 0, 0⟩) := by
    simp [processor, h1, h2, h3]
  exact ⟨hp, by simp [terminalEvents, hp]⟩

/-- Concrete environment whose config-store lookup errors. -/
def c7wEnv : Env :=
  { secretKey := some "k",
    parse := fun s => Except.ok s,
    lookup := LookupResult.err "boom",
    s3Fetch := Except.ok "body",
    parseArtifact := fun _ => Except.ok [],
    respond := fun _ => DownstreamResponse.timeout }

/-- Witness for C7 at a concrete failing lookup. -/
theorem C7_resolution_failure_witness :
    processor c7wEnv c3wJob.data =
      (.error "Failed to fetch notebook configuration: boom", ⟨1, 0, 0⟩) ∧
    terminalEvents c7wEnv c3wJob = [("nb1", "failed")] :=
  C7_resolution_failure c7wEnv c3wJob
    "Failed to fetch notebook configuration: boom" rfl rfl rfl

/-- Claim C8: monitoring bookkeeping is fully isolated from the job: the
job outcome surfaced by a run equals the processor's result whatever the
monitoring store does (read errors, write errors, any clock), and a
monitoring read error aborts the update with no write issued — the
embedding of `updateMonitoringData` returns normally on every store
behaviour, mirroring the `try`/`catch` that swallows every failure. -/
theorem C8_monitoring_isolated (env : Env) (selectRes : SelectResult)
    (upsertRes : UpsertResult) (now : String) (job : MonJob)
    (m : String) (status : String) :
    (runJobWithMonitoring env selectRes upsertRes now job).fst
      = processor env job.data ∧
    (updateMonitoringData (.err m) upsertRes now (some job) status).snd.writes
      = 0 := by
  constructor
  · rfl
  · by_cases hid : jsTruthyStr job.data.notebookId = true
    · simp [updateMonitoringData, hid]
    · have hid' : jsTruthyStr job.data.notebookId = false := by simpa using hid
      simp [updateMonitoringData, hid']

/-- Claim C10: a null job, or job data with a falsy `notebookId`, makes
`updateMonitoringData` return immediately with zero reads and zero
writes and nothing upserted — so a job rejected for a missing tenant id
leaves the monitoring state unchanged and produces no `failed` record. -/
theorem C10_skip_incomplete_job (selectRes : SelectResult)
    (upsertRes : UpsertResult) (now status : String) (job : MonJob)
    (hid : jsTruthyStr job.data.notebookId = false) :
    updateMonitoringData selectRes upsertRes now none status
      = (none, ⟨0, 0⟩) ∧
    updateMonitoringData selectRes upsertRes now (some job) status
      = (none, ⟨0, 0⟩) := by
  constructor
  · rfl
  · simp [updateMonitoringData, hid]

/-- Witness for C10 at a concrete job with no `notebookId` and a `failed`
event. -/
theorem C10_skip_incomplete_job_witness :
    updateMonitoringData (.ok none) .ok "t0" none "failed"
      = (none, ⟨0, 0⟩) ∧
    updateMonitoringData (.ok none) .ok "t0"
      (some ⟨"j9", ⟨some "key.json", none, none⟩⟩) "failed"
      = (none, ⟨0, 0⟩) :=
  C10_skip_incomplete_job (.ok none) .ok "t0" "failed"
    ⟨"j9", ⟨some "key.json", none, none⟩⟩ (by decide)
